import Mathlib

/-!
# Verification of the FPL unified data service (`fpl_service.py`)

A shallow embedding of the change-detection and reconciliation service in
`src/fpl_service.py`.  Python dictionaries with optional keys are modelled with
`Option` (outer `Option` = key presence, inner `Option` = a present-but-`None`
value where the code distinguishes the two).  Network and clock effects are
modelled by an explicit environment record, and the backing store by an explicit
state record threaded through each operation.  The backing store itself
(Supabase/PostgREST) is an external collaborator; its write semantics are
modelled at the boundary the design document specifies: a field-replace (PATCH)
addressed by key succeeds exactly when a matching record exists and the write is
not rejected by a (simulated) schema failure, and a create (POST) succeeds
exactly when no record with the same key exists and the write is not rejected.
Record payloads other than the fields the service's control flow inspects are
abstracted into an opaque `payload` field.
-/

namespace FPLService

/-- HTTP methods as dispatched by `FPLService.supabase_request`. -/
inductive Method where
  | GET | POST | PUT | PATCH | DELETE
deriving DecidableEq, Repr

/-- `supabase_request` dispatches only GET, POST, PUT and PATCH; any other
method hits the `else` branch and raises `ValueError` *inside* the `try`
block, so the surrounding `except` clause catches it and the function returns
`None` without ever issuing a request. -/
def methodSupported : Method → Bool
  | .GET | .POST | .PUT | .PATCH => true
  | .DELETE => false

/-- The metrics dictionary built by `get_current_metrics` / loaded from the
state file.  Each field's outer `Option` is key presence; `current_deadline`
and `last_deadline_refresh` may be present with value `None` (inner `none`). -/
structure Metrics where
  finished_gameweeks : Option Nat := none
  current_gameweek : Option Nat := none
  current_deadline : Option (Option String) := none
  last_deadline_refresh : Option (Option String) := none
deriving DecidableEq, Repr

/-- The empty metrics dictionary `{}`. -/
def Metrics.empty : Metrics := {}

/-- Whether the metrics dictionary is empty (falsy in Python:
`if not current_metrics`). `get_current_metrics` either returns `{}` or a
dictionary that always contains `finished_gameweeks`, and the loaded previous
metrics either come from a full saved state or are `{}`. -/
def Metrics.isEmpty (m : Metrics) : Bool :=
  m.finished_gameweeks.isNone && m.current_gameweek.isNone &&
    m.current_deadline.isNone && m.last_deadline_refresh.isNone

/-- The clock/parsing environment for `should_refresh_after_deadline`.
`deadlineElapsed d` models parsing the ISO deadline string `d`, converting it
to the configured local zone, adding the one-hour grace offset and comparing
with "now": `none` means the parse raised (the `except` clause then returns
`False`); `some b` means the comparison `now >= trigger_time` evaluated to
`b`. -/
structure TimeEnv where
  deadlineElapsed : String → Option Bool

/-- `FPLService.should_refresh_after_deadline`: returns `False` when the
current deadline is absent or `None`; returns `False` when the previous
metrics already record this exact deadline as `last_deadline_refresh`;
otherwise parses the deadline and fires iff now is at or past deadline + 1h
(any parse exception is caught and yields `False`). -/
def should_refresh_after_deadline (tenv : TimeEnv)
    (current_metrics previous_metrics : Metrics) : Bool :=
  match current_metrics.current_deadline with
  | none => false
  | some none => false
  | some (some d) =>
    let already : Bool :=
      match previous_metrics.last_deadline_refresh with
      | some v => v = some d
      | none => false
    if already then false
    else
      match tenv.deadlineElapsed d with
      | none => false
      | some b => b

/-- `FPLService.detect_changes`: OR of the completed-period trigger (both
snapshots contain `finished_gameweeks` and the current count is strictly
greater) and the deadline-elapsed trigger. -/
def detect_changes (tenv : TimeEnv)
    (current_metrics previous_metrics : Metrics) : Bool :=
  let finishedTrigger : Bool :=
    match current_metrics.finished_gameweeks,
        previous_metrics.finished_gameweeks with
    | some c, some p => c > p
    | _, _ => false
  finishedTrigger || should_refresh_after_deadline tenv current_metrics previous_metrics

/-- The state file content written by `save_current_state`: a timestamp and the
metrics dictionary. -/
structure SavedState where
  timestamp : String
  metrics : Metrics
deriving DecidableEq, Repr

/-- `FPLService.save_current_state`: writes `{timestamp, metrics}`; when
`refresh_triggered` is set and the metrics dictionary contains the key
`current_deadline`, it additionally stores `last_deadline_refresh :=
metrics['current_deadline']` (note: the flag is set by `check_once` after *any*
successful refresh, whichever trigger fired). -/
def save_current_state (now : String) (metrics : Metrics)
    (refresh_triggered : Bool) : SavedState :=
  let m :=
    if refresh_triggered ∧ metrics.current_deadline ≠ none then
      { metrics with last_deadline_refresh := metrics.current_deadline }
    else metrics
  { timestamp := now, metrics := m }

/-- `FPLService.get_current_gameweek_id` reads the identifier of the gameweek
flagged `is_current`, `None` when there is none; `get_gameweeks_to_refresh`
then computes the window from it.  Python's `if not current_gw` is true both
for `None` and for the integer `0`. -/
def gameweeks_window (current_gw : Option Nat) : List Nat :=
  match current_gw with
  | none => []
  | some c => if c = 0 then [] else if c > 1 then [c - 1, c] else [c]

/-! ## Store write primitives

The boundary semantics of the backing store, per the design document:
`PATCH table?key=eq.k` (a targeted field-replace) succeeds exactly when a
matching record exists and the write is not rejected by a simulated schema
failure, replacing every matching row; `POST table` (a create) succeeds
exactly when no record with the same key exists and the write is not
rejected.  A failed write leaves the table unchanged.  `Option Unit` is the
response: `some ()` success, `none` failure (the Python client returns
`None`). -/

/-- Field-replace by key over one table's rows. -/
def patchByKey {α κ : Type} [DecidableEq κ] (key : α → κ) (reject : κ → Bool)
    (rows : List α) (r : α) : Option Unit × List α :=
  if reject (key r) then (none, rows)
  else if rows.any (fun x => key x = key r) then
    (some (), rows.map (fun x => if key x = key r then r else x))
  else (none, rows)

/-- Create over one table's rows; fails on a duplicate key. -/
def postByKey {α κ : Type} [DecidableEq κ] (key : α → κ) (reject : κ → Bool)
    (rows : List α) (r : α) : Option Unit × List α :=
  if reject (key r) then (none, rows)
  else if rows.any (fun x => key x = key r) then (none, rows)
  else (some (), rows ++ [r])

/-- The per-record update-or-insert step inside `FPLService.upsert_data` (and,
with a composite key, inside `sync_player_gw_stats_from_live`): try a PATCH
addressed by key first; if it returns `None`, try a POST.  The `Bool` is
whether the record counts as successfully synced. -/
def upsertRecord {α κ : Type} [DecidableEq κ] (key : α → κ)
    (rejectPatch rejectPost : κ → Bool) (rows : List α) (r : α) : Bool × List α :=
  match patchByKey key rejectPatch rows r with
  | (some _, rows') => (true, rows')
  | (none, rows') =>
    match postByKey key rejectPost rows' r with
    | (some _, rows'') => (true, rows'')
    | (none, rows'') => (false, rows'')

/-- `FPLService.upsert_data`: upserts each record individually, counting
successes, and returns `success_count > 0` as the batch result (so an empty
batch returns `False`, and a batch where every record failed returns
`False`). -/
def upsert_data {α κ : Type} [DecidableEq κ] (key : α → κ)
    (rejectPatch rejectPost : κ → Bool) (rows : List α) (data : List α) :
    Bool × List α :=
  let step := fun (acc : Nat × List α) (r : α) =>
    let (ok, rs) := upsertRecord key rejectPatch rejectPost acc.2 r
    (acc.1 + (if ok then 1 else 0), rs)
  let out := data.foldl step (0, rows)
  (decide (out.1 > 0), out.2)

/-! ## Records and the store

Each record keeps its natural/composite key and the fields the service's
control flow inspects; every other field produced by the Python record-shaping
(`sync_teams` etc. build the full column dictionaries) is abstracted into an
opaque `payload : Nat`. -/

/-- A row of the `teams` table (keyed by `id`). -/
structure TeamRec where
  id : Nat
  payload : Nat := 0
deriving DecidableEq, Repr

/-- A row of the `players` table (keyed by `id`). -/
structure PlayerRec where
  id : Nat
  payload : Nat := 0
deriving DecidableEq, Repr

/-- A row of the `gameweeks` table (keyed by `id`).  `deadline_time` is
`none` for a null deadline. -/
structure EventRec where
  id : Nat
  deadline_time : Option String := none
  is_current : Bool := false
  finished : Bool := false
  payload : Nat := 0
deriving DecidableEq, Repr

/-- A row of the `fixtures` table (keyed by `id`). -/
structure FixtureRec where
  id : Nat
  payload : Nat := 0
deriving DecidableEq, Repr

/-- One element of a per-gameweek live document.  `minutes = none` models an
absent `minutes` key (or an absent `stats` dictionary, which
`player_data.get('stats', {})` turns into the same thing). -/
structure LivePlayer where
  id : Nat
  minutes : Option Nat := none
  payload : Nat := 0
deriving DecidableEq, Repr

/-- A row of the `player_gw_stats` table, composite-keyed by
`(player_id, gameweek_id)`. -/
structure StatRow where
  player_id : Nat
  gameweek_id : Nat
  minutes : Nat
  payload : Nat := 0
deriving DecidableEq, Repr

/-- A row of the `user_entries` table.  `fpl_entry_id = 0` models a
missing/null entry identifier (Python filters out falsy values). -/
structure EntryRow where
  user_id : Nat
  fpl_entry_id : Nat
  payload : Nat := 0
deriving DecidableEq, Repr

/-- A row of the `user_player_ownership` table, composite-keyed by
`(user_id, player_id, gameweek_id)`. -/
structure OwnershipRow where
  user_id : Nat
  player_id : Nat
  gameweek_id : Nat
  owned : Bool := true
  payload : Nat := 0
deriving DecidableEq, Repr

/-- The composite key of an ownership row. -/
def ownershipKey (r : OwnershipRow) : Nat × Nat × Nat :=
  (r.user_id, r.player_id, r.gameweek_id)

/-- The composite key of a player-gameweek stat row. -/
def statKey (r : StatRow) : Nat × Nat := (r.player_id, r.gameweek_id)

/-- The backing store: the tables this service writes.  Reads are modelled as
succeeding and returning the current rows. -/
structure Store where
  teams : List TeamRec := []
  players : List PlayerRec := []
  gameweeks : List EventRec := []
  fixtures : List FixtureRec := []
  player_gw_stats : List StatRow := []
  user_entries : List EntryRow := []
  user_player_ownership : List OwnershipRow := []
deriving DecidableEq, Repr

/-- The bootstrap document: `teams`, `elements`, `events` (already shaped into
store rows; the Python field mapping is payload-preserving). -/
structure BootstrapDoc where
  teams : List TeamRec := []
  elements : List PlayerRec := []
  events : List EventRec := []
deriving DecidableEq, Repr

/-- The frozen external world for one check cycle: FPL API responses (`none` =
fetch failed or required key absent), simulated per-table schema rejections for
store writes, the RPC outcome, the clock, and "now" as a timestamp string. -/
structure Env where
  now : String := ""
  storeUp : Bool := true
  bootstrap : Option BootstrapDoc := none
  fixturesDoc : Option (List FixtureRec) := none
  live : Nat → Option (List LivePlayer) := fun _ => none
  entry : Nat → Option Nat := fun _ => none
  picks : Nat → Nat → Option (List Nat) := fun _ _ => none
  rejTeamsPatch : Nat → Bool := fun _ => false
  rejTeamsPost : Nat → Bool := fun _ => false
  rejPlayersPatch : Nat → Bool := fun _ => false
  rejPlayersPost : Nat → Bool := fun _ => false
  rejEventsPatch : Nat → Bool := fun _ => false
  rejEventsPost : Nat → Bool := fun _ => false
  rejFixturesPatch : Nat → Bool := fun _ => false
  rejFixturesPost : Nat → Bool := fun _ => false
  rejStatsPatch : Nat × Nat → Bool := fun _ => false
  rejStatsPost : Nat × Nat → Bool := fun _ => false
  rejEntriesPatch : Nat → Bool := fun _ => false
  rejOwnershipPost : Nat × Nat × Nat → Bool := fun _ => false
  rpcTeamStats : Bool := true
  deadlineElapsed : String → Option Bool := fun _ => none

/-- The clock view of an environment, as consumed by the Change Detector. -/
def Env.time (env : Env) : TimeEnv := ⟨env.deadlineElapsed⟩

/-! ## Entity-type sync operations -/

/-- `FPLService.sync_teams`: shape the raw team dictionaries and batch-upsert
them into `teams`. -/
def sync_teams (env : Env) (store : Store) (teams_data : List TeamRec) :
    Bool × Store :=
  let out := upsert_data TeamRec.id env.rejTeamsPatch env.rejTeamsPost
    store.teams teams_data
  (out.1, { store with teams := out.2 })

/-- `FPLService.sync_players`: shape and batch-upsert into `players`. -/
def sync_players (env : Env) (store : Store) (players_data : List PlayerRec) :
    Bool × Store :=
  let out := upsert_data PlayerRec.id env.rejPlayersPatch env.rejPlayersPost
    store.players players_data
  (out.1, { store with players := out.2 })

/-- `FPLService.sync_gameweeks`: shape and batch-upsert into `gameweeks`. -/
def sync_gameweeks (env : Env) (store : Store) (events_data : List EventRec) :
    Bool × Store :=
  let out := upsert_data EventRec.id env.rejEventsPatch env.rejEventsPost
    store.gameweeks events_data
  (out.1, { store with gameweeks := out.2 })

/-- `FPLService.sync_fixtures`: shape and batch-upsert into `fixtures`. -/
def sync_fixtures (env : Env) (store : Store) (fixtures_data : List FixtureRec) :
    Bool × Store :=
  let out := upsert_data FixtureRec.id env.rejFixturesPatch env.rejFixturesPost
    store.fixtures fixtures_data
  (out.1, { store with fixtures := out.2 })

/-- The minutes a live element played: `stats.get('minutes', 0)`. -/
def minutesOf (p : LivePlayer) : Nat := p.minutes.getD 0

/-- The stat row built for one live element in `sync_player_gw_stats_from_live`
(all counters beyond `minutes` abstracted into `payload`). -/
def toStatRow (gw : Nat) (p : LivePlayer) : StatRow :=
  { player_id := p.id, gameweek_id := gw, minutes := minutesOf p,
    payload := p.payload }

/-- The `player_stats` batch built by `sync_player_gw_stats_from_live`: one row
per live element whose `minutes` is strictly positive, in document order. -/
def live_stat_rows (gw : Nat) (elements : List LivePlayer) : List StatRow :=
  (elements.filter (fun p => minutesOf p > 0)).map (toStatRow gw)

/-- `FPLService.sync_player_gw_stats_from_live`: fetch the live document for a
gameweek (failure or a missing `elements` key returns `False`); build the
positive-minutes batch; an empty batch returns `True` without writing;
otherwise update-or-insert each row by its composite key and return
`success_count > 0`. -/
def sync_player_gw_stats_from_live (env : Env) (gw : Nat) (store : Store) :
    Bool × Store :=
  match env.live gw with
  | none => (false, store)
  | some elements =>
    let player_stats := live_stat_rows gw elements
    if player_stats.isEmpty then (true, store)
    else
      let out := player_stats.foldl (fun (acc : Nat × Store) r =>
        let step := upsertRecord statKey env.rejStatsPatch env.rejStatsPost
          acc.2.player_gw_stats r
        (acc.1 + (if step.1 then 1 else 0),
          { acc.2 with player_gw_stats := step.2 })) (0, store)
      (decide (out.1 > 0), out.2)

/-- `FPLService.get_registered_manager_ids`: the `fpl_entry_id` column of
`user_entries`, keeping truthy (nonzero) values only. -/
def get_registered_manager_ids (store : Store) : List Nat :=
  (store.user_entries.map EntryRow.fpl_entry_id).filter (fun i => i ≠ 0)

/-- `FPLService.sync_single_user_entry`: fetch the manager summary, look up the
internal `user_id` for the manager, and PATCH the `user_entries` row addressed
by `fpl_entry_id` (no POST fallback in this function). -/
def sync_single_user_entry (env : Env) (m : Nat) (store : Store) :
    Bool × Store :=
  match env.entry m with
  | none => (false, store)
  | some pay =>
    match (store.user_entries.filter (fun e => e.fpl_entry_id = m)).head? with
    | none => (false, store)
    | some e0 =>
      let newRow : EntryRow :=
        { user_id := e0.user_id, fpl_entry_id := m, payload := pay }
      let out := patchByKey EntryRow.fpl_entry_id env.rejEntriesPatch
        store.user_entries newRow
      (out.1.isSome, { store with user_entries := out.2 })

/-- `FPLService.sync_user_entries`: sync every registered manager; vacuously
`True` with no managers, else `success_count > 0`. -/
def sync_user_entries (env : Env) (store : Store) : Bool × Store :=
  let ids := get_registered_manager_ids store
  if ids.isEmpty then (true, store)
  else
    let out := ids.foldl (fun (acc : Nat × Store) m =>
      let step := sync_single_user_entry env m acc.2
      (acc.1 + (if step.1 then 1 else 0), step.2)) (0, store)
    (decide (out.1 > 0), out.2)

/-- `FPLService.sync_user_picks_for_gameweek`: fetch the manager's picks for
the gameweek, look up the internal `user_id`, issue
`supabase_request('DELETE', ...)` to clear the existing `(user, gameweek)`
ownership rows — but DELETE is not among the methods `supabase_request`
dispatches, so the raised `ValueError` is caught and `None` is returned with
the rows untouched — then POST one fresh ownership row per picked player and
return `success_count > 0`. -/
def sync_user_picks_for_gameweek (env : Env) (m gw : Nat) (store : Store) :
    Bool × Store :=
  match env.picks m gw with
  | none => (false, store)
  | some picks =>
    match (store.user_entries.filter (fun e => e.fpl_entry_id = m)).head? with
    | none => (false, store)
    | some e0 =>
      let uid := e0.user_id
      let cleared : List OwnershipRow :=
        store.user_player_ownership.filter
          (fun r => ¬(r.user_id = uid ∧ r.gameweek_id = gw))
      let s1 : Store :=
        if methodSupported .DELETE then
          { store with user_player_ownership := cleared }
        else store
      let out := picks.foldl (fun (acc : Nat × Store) p =>
        let row : OwnershipRow :=
          { user_id := uid, player_id := p, gameweek_id := gw }
        let step := postByKey ownershipKey env.rejOwnershipPost
          acc.2.user_player_ownership row
        ((if step.1.isSome then acc.1 + 1 else acc.1),
          { acc.2 with user_player_ownership := step.2 })) (0, s1)
      (decide (out.1 > 0), out.2)

/-- `FPLService.sync_user_picks_for_all_managers`: picks for every registered
manager for one gameweek; vacuously `True` with no managers. -/
def sync_user_picks_for_all_managers (env : Env) (gw : Nat) (store : Store) :
    Bool × Store :=
  let ids := get_registered_manager_ids store
  if ids.isEmpty then (true, store)
  else
    let out := ids.foldl (fun (acc : Nat × Store) m =>
      let step := sync_user_picks_for_gameweek env m gw acc.2
      (acc.1 + (if step.1 then 1 else 0), step.2)) (0, store)
    (decide (out.1 > 0), out.2)

/-- `FPLService.get_current_gameweek_id`: the id of the gameweek flagged
`is_current`, if any. -/
def get_current_gameweek_id (store : Store) : Option Nat :=
  ((store.gameweeks.filter EventRec.is_current).head?).map EventRec.id

/-- `FPLService.get_gameweeks_to_refresh`: the window of gameweeks eligible for
per-player stat /picks refresh. -/
def get_gameweeks_to_refresh (store : Store) : List Nat :=
  gameweeks_window (get_current_gameweek_id store)

/-- `FPLService.test_connections`: the FPL bootstrap fetch and a store read
must both succeed. -/
def test_connections (env : Env) : Bool :=
  env.bootstrap.isSome && env.storeUp

/-- `FPLService.perform_refresh`: the Reconciliation Pipeline.  Hard gates, in
order: connectivity, bootstrap fetch, the three core batches (teams, players,
gameweeks — aborting unless *all three* batch results are true), the fixtures
fetch (an empty fixtures list is falsy and also aborts) and the fixtures
batch.  Every later step (player stats over the refresh window, user entries,
user picks, the team-stats RPC) only logs warnings on failure; the function
then returns `True`. -/
def perform_refresh (env : Env) (store : Store) : Bool × Store :=
  if ¬ test_connections env then (false, store)
  else
    match env.bootstrap with
    | none => (false, store)
    | some b =>
      let t := sync_teams env store b.teams
      let p := sync_players env t.2 b.elements
      let g := sync_gameweeks env p.2 b.events
      if ¬ (t.1 && p.1 && g.1) then (false, g.2)
      else
        match env.fixturesDoc with
        | none => (false, g.2)
        | some fx =>
          if fx.isEmpty then (false, g.2)
          else
            let f := sync_fixtures env g.2 fx
            if ¬ f.1 then (false, f.2)
            else
              let gws := get_gameweeks_to_refresh f.2
              let s5 := gws.foldl
                (fun s gw => (sync_player_gw_stats_from_live env gw s).2) f.2
              let s6 := (sync_user_entries env s5).2
              let s7 := gws.foldl
                (fun s gw => (sync_user_picks_for_all_managers env gw s).2) s6
              (true, s7)

/-- `FPLService.get_current_metrics`: sample the store.  If the
finished-gameweeks read fails the whole sample is `{}`; with no current
gameweek the sentinel values `0` / `None` are substituted. -/
def get_current_metrics (env : Env) (store : Store) : Metrics :=
  if ¬ env.storeUp then Metrics.empty
  else
    let finished := (store.gameweeks.filter EventRec.finished).length
    match (store.gameweeks.filter EventRec.is_current).head? with
    | some gw =>
      { finished_gameweeks := some finished, current_gameweek := some gw.id,
        current_deadline := some gw.deadline_time,
        last_deadline_refresh := none }
    | none =>
      { finished_gameweeks := some finished, current_gameweek := some 0,
        current_deadline := some none, last_deadline_refresh := none }

/-- `FPLService.load_previous_state` composed with `.get('metrics', {})`: the
metrics of the saved state file, or `{}` when the file is absent. -/
def load_previous_metrics (file : Option SavedState) : Metrics :=
  match file with
  | some st => st.metrics
  | none => Metrics.empty

/-- `FPLService.check_once`: one control-loop cycle.  Returns the cycle result,
the state-file content after the cycle, and the store after the cycle.  An
empty metrics sample aborts with the file untouched; if changes are detected a
refresh runs, and the snapshot is persisted (with `refresh_triggered = True`)
only when the refresh succeeds; with no changes the snapshot is persisted
unconditionally. -/
def check_once (env : Env) (file : Option SavedState) (store : Store) :
    Bool × Option SavedState × Store :=
  let cm := get_current_metrics env store
  if cm.isEmpty then (false, file, store)
  else
    let pm := load_previous_metrics file
    if detect_changes env.time cm pm then
      let r := perform_refresh env store
      if r.1 then (true, some (save_current_state env.now cm true), r.2)
      else (false, file, r.2)
    else (true, some (save_current_state env.now cm false), store)

/-! ## Theorems -/

/-- C4: the deadline trigger fires at most once per distinct deadline value:
whenever the current metrics' deadline equals the deadline the previous
snapshot records as `last_deadline_refresh`, `should_refresh_after_deadline`
returns `false` (so a second detector call with the same consumed deadline
returns `false`). -/
theorem deadline_trigger_at_most_once (tenv : TimeEnv) (cm pm : Metrics)
    (d : String) (hc : cm.current_deadline = some (some d))
    (hp : pm.last_deadline_refresh = some (some d)) :
    should_refresh_after_deadline tenv cm pm = false := by
  simp [should_refresh_after_deadline, hc, hp]

/-- Witness for C4 at a concrete consumed deadline. -/
theorem deadline_trigger_at_most_once_witness :
    should_refresh_after_deadline ⟨fun _ => some true⟩
      { current_deadline := some (some "2024-03-01T11:30:00Z") }
      { last_deadline_refresh := some (some "2024-03-01T11:30:00Z") } = false :=
  deadline_trigger_at_most_once _ _ _ "2024-03-01T11:30:00Z" rfl rfl

/-- C5: when the current finished count does not exceed the previous one and
the deadline trigger condition is false, `detect_changes` reports no refresh
needed; in particular a decrease in the finished count never triggers. -/
theorem detector_no_trigger_on_nonincrease (tenv : TimeEnv) (cm pm : Metrics)
    (hle : ∀ c p, cm.finished_gameweeks = some c →
      pm.finished_gameweeks = some p → c ≤ p)
    (hdl : should_refresh_after_deadline tenv cm pm = false) :
    detect_changes tenv cm pm = false := by
  unfold detect_changes
  rw [hdl, Bool.or_false]
  cases hc : cm.finished_gameweeks with
  | none => rfl
  | some c =>
    cases hp : pm.finished_gameweeks with
    | none => rfl
    | some p => simpa using hle c p hc hp

/-- Witness for C5: a strict decrease of the finished count with no deadline
information does not trigger. -/
theorem detector_no_trigger_on_nonincrease_witness :
    detect_changes ⟨fun _ => none⟩ { finished_gameweeks := some 3 }
      { finished_gameweeks := some 4 } = false := by
  refine detector_no_trigger_on_nonincrease _ _ _ (fun c p hc hp => ?_) rfl
  simp only [Option.some.injEq] at hc hp
  omega

/-- C8: the per-player stats refresh window is `[current - 1, current]` when
the current gameweek identifier is greater than 1, `[current]` for the first
gameweek, and empty when no current gameweek exists. -/
theorem refresh_window_shape (c : Nat) (h : 1 < c) :
    gameweeks_window (some c) = [c - 1, c] ∧
      gameweeks_window (some 1) = [1] ∧ gameweeks_window none = [] := by
  refine ⟨?_, rfl, rfl⟩
  show (if c = 0 then [] else if c > 1 then [c - 1, c] else [c]) = [c - 1, c]
  rw [if_neg (by omega), if_pos h]

/-- Witness for C8 at current gameweek 5. -/
theorem refresh_window_shape_witness :
    gameweeks_window (some 5) = [4, 5] ∧
      gameweeks_window (some 1) = [1] ∧ gameweeks_window none = [] :=
  refresh_window_shape 5 (by decide)

/-- C10: on a first run (empty previous metrics) the completed-period trigger
cannot fire, because it requires the `finished_gameweeks` key in both
snapshots; the detector's verdict reduces to the deadline-elapsed trigger
alone. -/
theorem first_run_detector_is_deadline_only (tenv : TimeEnv) (cm : Metrics) :
    detect_changes tenv cm Metrics.empty =
      should_refresh_after_deadline tenv cm Metrics.empty := by
  unfold detect_changes Metrics.empty
  cases cm.finished_gameweeks <;> simp

/-- C7: the stat batch built from a live document contains only rows with
strictly positive minutes, and a player whose minutes are zero (or absent)
contributes no row. -/
theorem zero_minutes_no_stat_row (gw : Nat) (elements : List LivePlayer)
    (p : LivePlayer) (hp : minutesOf p = 0) :
    ((live_stat_rows gw elements).all fun r => 0 < r.minutes) = true ∧
      toStatRow gw p ∉ live_stat_rows gw elements := by
  constructor
  · rw [List.all_eq_true]
    intro r hr
    obtain ⟨q, hq, rfl⟩ := List.mem_map.mp hr
    have hq2 := (List.mem_filter.mp hq).2
    simpa [toStatRow] using hq2
  · intro hmem
    obtain ⟨q, hq, hqr⟩ := List.mem_map.mp hmem
    have hq2 := (List.mem_filter.mp hq).2
    have hmin : minutesOf q = minutesOf p := congrArg StatRow.minutes hqr
    rw [hp] at hmin
    simp [hmin] at hq2

/-- Witness for C7: the zero-minute and the absent-minutes player produce no
row; the 90-minute player does. -/
theorem zero_minutes_no_stat_row_witness :
    ((live_stat_rows 7 [⟨9, none, 0⟩, ⟨2, some 90, 0⟩, ⟨3, some 0, 0⟩]).all
        fun r => 0 < r.minutes) = true ∧
      toStatRow 7 ⟨9, none, 0⟩ ∉
        live_stat_rows 7 [⟨9, none, 0⟩, ⟨2, some 90, 0⟩, ⟨3, some 0, 0⟩] :=
  zero_minutes_no_stat_row 7 _ ⟨9, none, 0⟩ rfl

/-! ### Helper lemmas for the update-or-insert policy -/

/-- Replacing the keyed rows twice is the same as replacing them once. -/
lemma replace_fun_idem {α κ : Type} [DecidableEq κ] (key : α → κ) (r x : α) :
    (if key (if key x = key r then r else x) = key r then r
        else if key x = key r then r else x) =
      (if key x = key r then r else x) := by
  by_cases h : key x = key r <;> simp [h]

/-- A key-directed replacement preserves whether some row matches the key. -/
lemma any_key_map {α κ : Type} [DecidableEq κ] (key : α → κ) (r : α)
    (rows : List α) :
    ((rows.map fun x => if key x = key r then r else x).any
        fun x => key x = key r) = rows.any fun x => key x = key r := by
  induction rows with
  | nil => rfl
  | cons a t ih =>
    simp only [List.map_cons, List.any_cons, ih]
    by_cases h : key a = key r <;> simp [h]

/-- When no row matches the key, a key-directed replacement is the identity. -/
lemma map_of_no_match {α κ : Type} [DecidableEq κ] (key : α → κ) (r : α)
    (rows : List α) (h : (rows.any fun x => key x = key r) = false) :
    (rows.map fun x => if key x = key r then r else x) = rows := by
  induction rows with
  | nil => rfl
  | cons a t ih =>
    simp only [List.any_cons, Bool.or_eq_false_iff, decide_eq_false_iff_not]
      at h
    simp [List.map_cons, ih h.2, if_neg h.1]

/-- Replaying the same key-directed replacement on an already-replaced list
changes nothing. -/
lemma map_replace_idem {α κ : Type} [DecidableEq κ] (key : α → κ) (r : α)
    (rows : List α) :
    ((rows.map fun x => if key x = key r then r else x).map
        fun x => if key x = key r then r else x) =
      rows.map fun x => if key x = key r then r else x := by
  rw [List.map_map]
  exact List.map_congr_left fun x _ => replace_fun_idem key r x

/-- A rejected PATCH fails and leaves the rows unchanged. -/
lemma patchByKey_rejected {α κ : Type} [DecidableEq κ] (key : α → κ)
    (reject : κ → Bool) (rows : List α) (r : α)
    (h : reject (key r) = true) :
    patchByKey key reject rows r = (none, rows) := by
  simp [patchByKey, h]

/-- A non-rejected PATCH with a matching row succeeds and replaces the keyed
rows. -/
lemma patchByKey_hit {α κ : Type} [DecidableEq κ] (key : α → κ)
    (reject : κ → Bool) (rows : List α) (r : α)
    (h1 : reject (key r) = false)
    (h2 : (rows.any fun x => key x = key r) = true) :
    patchByKey key reject rows r =
      (some (), rows.map fun x => if key x = key r then r else x) := by
  simp [patchByKey, h1, h2]

/-- A non-rejected PATCH with no matching row fails and leaves the rows
unchanged. -/
lemma patchByKey_miss {α κ : Type} [DecidableEq κ] (key : α → κ)
    (reject : κ → Bool) (rows : List α) (r : α)
    (h1 : reject (key r) = false)
    (h2 : (rows.any fun x => key x = key r) = false) :
    patchByKey key reject rows r = (none, rows) := by
  simp [patchByKey, h1, h2]

/-- A rejected POST fails and leaves the rows unchanged. -/
lemma postByKey_rejected {α κ : Type} [DecidableEq κ] (key : α → κ)
    (reject : κ → Bool) (rows : List α) (r : α)
    (h : reject (key r) = true) :
    postByKey key reject rows r = (none, rows) := by
  simp [postByKey, h]

/-- A POST hitting a duplicate key fails and leaves the rows unchanged. -/
lemma postByKey_dup {α κ : Type} [DecidableEq κ] (key : α → κ)
    (reject : κ → Bool) (rows : List α) (r : α)
    (h1 : reject (key r) = false)
    (h2 : (rows.any fun x => key x = key r) = true) :
    postByKey key reject rows r = (none, rows) := by
  simp [postByKey, h1, h2]

/-- A non-rejected POST with no duplicate inserts the record at the end. -/
lemma postByKey_insert {α κ : Type} [DecidableEq κ] (key : α → κ)
    (reject : κ → Bool) (rows : List α) (r : α)
    (h1 : reject (key r) = false)
    (h2 : (rows.any fun x => key x = key r) = false) :
    postByKey key reject rows r = (some (), rows ++ [r]) := by
  simp [postByKey, h1, h2]

/-- A list with the record appended always contains a key match for it. -/
lemma any_key_append_self {α κ : Type} [DecidableEq κ] (key : α → κ)
    (rows : List α) (r : α) :
    ((rows ++ [r]).any fun x => key x = key r) = true := by
  simp [List.any_append]

/-- C6: the per-record update-or-insert step is idempotent — applying it twice
with the same record leaves the table in the same observable state as applying
it once — and the record counts as successfully synced exactly when the PATCH
or the fallback POST succeeded. -/
theorem upsert_record_idempotent {α κ : Type} [DecidableEq κ] (key : α → κ)
    (rejectPatch rejectPost : κ → Bool) (rows : List α) (r : α) :
    (upsertRecord key rejectPatch rejectPost
        (upsertRecord key rejectPatch rejectPost rows r).2 r).2 =
      (upsertRecord key rejectPatch rejectPost rows r).2 ∧
    (upsertRecord key rejectPatch rejectPost rows r).1 =
      ((patchByKey key rejectPatch rows r).1.isSome ||
        (postByKey key rejectPost (patchByKey key rejectPatch rows r).2
          r).1.isSome) := by
  by_cases hrp : rejectPatch (key r) = true
  · by_cases hri : rejectPost (key r) = true
    · simp [upsertRecord, patchByKey_rejected key rejectPatch _ r hrp,
        postByKey_rejected key rejectPost _ r hri]
    · rw [Bool.not_eq_true] at hri
      by_cases hm : (rows.any fun x => key x = key r) = true
      · simp [upsertRecord, patchByKey_rejected key rejectPatch _ r hrp,
          postByKey_dup key rejectPost rows r hri hm]
      · rw [Bool.not_eq_true] at hm
        simp [upsertRecord, patchByKey_rejected key rejectPatch _ r hrp,
          postByKey_insert key rejectPost rows r hri hm,
          postByKey_dup key rejectPost (rows ++ [r]) r hri
            (any_key_append_self key rows r)]
  · rw [Bool.not_eq_true] at hrp
    by_cases hm : (rows.any fun x => key x = key r) = true
    · have h2 : ((rows.map fun x => if key x = key r then r else x).any
          fun x => key x = key r) = true := by
        rw [any_key_map key r rows]; exact hm
      simp [upsertRecord, patchByKey_hit key rejectPatch rows r hrp hm,
        patchByKey_hit key rejectPatch _ r hrp h2,
        map_replace_idem key r rows]
    · rw [Bool.not_eq_true] at hm
      by_cases hri : rejectPost (key r) = true
      · simp [upsertRecord, patchByKey_miss key rejectPatch rows r hrp hm,
          postByKey_rejected key rejectPost _ r hri]
      · rw [Bool.not_eq_true] at hri
        have h3 : (((rows ++ [r]).map fun x => if key x = key r then r
            else x).any fun x => key x = key r) = true := by
          rw [any_key_map key r (rows ++ [r])]
          exact any_key_append_self key rows r
        simp [upsertRecord, patchByKey_miss key rejectPatch rows r hrp hm,
          postByKey_insert key rejectPost rows r hri hm,
          patchByKey_hit key rejectPatch (rows ++ [r]) r hrp
            (any_key_append_self key rows r),
          List.map_append, map_of_no_match key r rows hm]

/-! ### The ownership full-replace scenario (C1)

Manager 42 (internal user 7) first syncs picks `{1, 2, 3}` for gameweek 5 and
then picks `{1, 4}` for the same gameweek.  The claimed delete-then-insert
policy would leave exactly the rows for players `{1, 4}`; the code's DELETE is
routed through `supabase_request`, which does not dispatch DELETE and returns
`None` after catching the `ValueError` it raised, so the old rows survive. -/

/-- Store before the first picks sync: one registered manager, no ownership
rows. -/
def c1Store : Store := { user_entries := [{ user_id := 7, fpl_entry_id := 42 }] }

/-- First fetch: the squad is `{1, 2, 3}`. -/
def c1EnvA : Env := { picks := fun _ _ => some [1, 2, 3] }

/-- Second fetch: the squad changed to `{1, 4}`. -/
def c1EnvB : Env := { picks := fun _ _ => some [1, 4] }

/-- The store after syncing `{1, 2, 3}` and then `{1, 4}` for (manager 42,
gameweek 5). -/
def c1Final : Store :=
  (sync_user_picks_for_gameweek c1EnvB 42 5
    (sync_user_picks_for_gameweek c1EnvA 42 5 c1Store).2).2

/-- C1 (code bug): after syncing picks `{1, 2, 3}` and then `{1, 4}` for the
same (manager, gameweek), the ownership rows for (user 7, gameweek 5) are the
union `{1, 2, 3, 4}` — the stale rows for players 2 and 3 survive — because
`supabase_request` dispatches only GET/POST/PUT/PATCH and the DELETE intended
to clear the old rows is silently dropped.  The rows are not the claimed
`{1, 4}`. -/
theorem ownership_sync_leaves_stale_rows :
    c1Final.user_player_ownership.map OwnershipRow.player_id = [1, 2, 3, 4] ∧
      c1Final.user_player_ownership.map OwnershipRow.player_id ≠ [1, 4] ∧
      methodSupported Method.DELETE = false := by
  refine ⟨by decide, by decide, rfl⟩

/-! ### Batch-failure semantics of the refresh (C2, C9) -/

/-- A current (unfinished) gameweek whose deadline has passed. -/
def c2Gw : EventRec :=
  { id := 1, deadline_time := some "2024-03-01T11:30:00Z", is_current := true }

/-- A store with one current gameweek whose deadline has passed, so the
deadline trigger fires against an empty previous snapshot. -/
def c2Store : Store := { gameweeks := [c2Gw] }

/-- The bootstrap document for the C2 scenario: one team, one player, one
gameweek. -/
def c2Boot : BootstrapDoc :=
  { teams := [{ id := 1 }], elements := [{ id := 1 }], events := [c2Gw] }

/-- An environment where every write to the `teams` table is rejected
(simulated schema failure) while all other tables accept writes, and both
upstream fetches succeed. -/
def c2Env : Env :=
  { bootstrap := some c2Boot,
    fixturesDoc := some [{ id := 1 }],
    rejTeamsPatch := fun _ => true,
    rejTeamsPost := fun _ => true,
    deadlineElapsed := fun _ => some true }

/-- C2 counterexample: when the store rejects every Team upsert while the
Player and Period batches succeed, `perform_refresh` returns *failure* (the
core-data gate checks all three batches), even though player and gameweek data
were written; the triggered check cycle then reports failure and does not
persist a snapshot. -/
theorem total_team_batch_failure_fails_refresh :
    (perform_refresh c2Env c2Store).1 = false ∧
      (perform_refresh c2Env c2Store).2.players = [{ id := 1 }] ∧
      (perform_refresh c2Env c2Store).2.gameweeks.isEmpty = false ∧
      (check_once c2Env none c2Store).1 = false ∧
      (check_once c2Env none c2Store).2.1 = none := by
  refine ⟨by decide, by decide, by decide, by decide, by decide⟩

/-- C2 amended: per-record failures degrade the refresh without failing it —
as long as connectivity and the two fetches succeed and each of the four
hard-gated batches (teams, players, gameweeks, fixtures) reports success,
i.e. at least one of its records synced, `perform_refresh` returns success
regardless of any failure in the later steps (player stats, user entries,
user picks, the team-stats aggregation). -/
theorem refresh_partial_record_failures_still_succeed (env : Env)
    (store : Store) (b : BootstrapDoc) (fx : List FixtureRec)
    (hup : env.storeUp = true) (hb : env.bootstrap = some b)
    (hfx : env.fixturesDoc = some fx) (hfxne : fx.isEmpty = false)
    (ht : (sync_teams env store b.teams).1 = true)
    (hp : (sync_players env (sync_teams env store b.teams).2 b.elements).1 =
      true)
    (hg : (sync_gameweeks env (sync_players env
        (sync_teams env store b.teams).2 b.elements).2 b.events).1 = true)
    (hf : (sync_fixtures env (sync_gameweeks env (sync_players env
        (sync_teams env store b.teams).2 b.elements).2 b.events).2 fx).1 =
      true) :
    (perform_refresh env store).1 = true := by
  unfold perform_refresh
  simp [test_connections, hb, hup, ht, hp, hg, hfx, hfxne, hf]

/-- The bootstrap document for the partial-failure witness: two teams, one
player, one current gameweek. -/
def c2wBoot : BootstrapDoc :=
  { teams := [{ id := 1 }, { id := 2 }], elements := [{ id := 1 }],
    events := [{ id := 1, is_current := true }] }

/-- An environment with a genuinely partial core failure: team 2's writes are
rejected while team 1 syncs, and every later step is left to fail (no live
data, no manager data, RPC down). -/
def c2wEnv : Env :=
  { bootstrap := some c2wBoot,
    fixturesDoc := some [{ id := 1 }],
    rejTeamsPatch := fun i => i = 2,
    rejTeamsPost := fun i => i = 2,
    rpcTeamStats := false }

/-- Witness for the amended C2: with team 2 rejected but team 1 synced, the
refresh still reports success. -/
theorem refresh_partial_record_failures_still_succeed_witness :
    (perform_refresh c2wEnv {}).1 = true :=
  refresh_partial_record_failures_still_succeed c2wEnv {} c2wBoot
    [{ id := 1 }] rfl rfl rfl rfl (by decide) (by decide) (by decide)
    (by decide)

/-! ### Deadline consumption on non-deadline refreshes (C3) -/

/-- A current gameweek that has just finished; its deadline has not newly
elapsed (the clock reports the grace boundary as not reached). -/
def c3Gw : EventRec :=
  { id := 2, deadline_time := some "2024-03-08T11:30:00Z", is_current := true,
    finished := true }

/-- A store whose finished-gameweek count moved from 0 (previous snapshot) to
1. -/
def c3Store : Store := { gameweeks := [c3Gw] }

/-- The bootstrap document for the C3 scenario. -/
def c3Boot : BootstrapDoc :=
  { teams := [{ id := 1 }], elements := [{ id := 1 }], events := [c3Gw] }

/-- An environment where every sync step succeeds and the deadline-elapsed
comparison is false, so only the completed-period trigger can fire. -/
def c3Env : Env :=
  { now := "2024-03-08T20:00:00Z",
    bootstrap := some c3Boot,
    fixturesDoc := some [{ id := 1 }],
    deadlineElapsed := fun _ => some false }

/-- The previous snapshot: no deadline ever consumed, finished count 0. -/
def c3File : Option SavedState :=
  some { timestamp := "2024-03-01T00:00:00Z",
         metrics := { finished_gameweeks := some 0 } }

/-- C3 counterexample: in a cycle where the detector fires solely because the
finished count rose (the deadline trigger condition is false), the snapshot
persisted after the successful refresh nevertheless sets
`last_deadline_refresh` to the current deadline — `check_once` passes
`refresh_triggered=True` for any trigger. -/
theorem snapshot_consumes_deadline_on_finished_count_refresh :
    should_refresh_after_deadline c3Env.time (get_current_metrics c3Env c3Store)
        (load_previous_metrics c3File) = false ∧
      detect_changes c3Env.time (get_current_metrics c3Env c3Store)
        (load_previous_metrics c3File) = true ∧
      ((check_once c3Env c3File c3Store).2.1.map
          fun st => st.metrics.last_deadline_refresh) =
        some (some (some "2024-03-08T11:30:00Z")) := by
  refine ⟨by decide, by decide, by decide⟩

/-- C3 amended: the snapshot persisted after any successful detector-triggered
refresh sets `last_deadline_refresh` to the sampled `current_deadline`
(whatever trigger fired), because `check_once` passes `refresh_triggered=True`
whenever a refresh ran and the sampled metrics always contain the
`current_deadline` key. -/
theorem snapshot_marks_deadline_on_any_refresh (env : Env)
    (file : Option SavedState) (store : Store)
    (hup : env.storeUp = true)
    (hdet : detect_changes env.time (get_current_metrics env store)
        (load_previous_metrics file) = true)
    (href : (perform_refresh env store).1 = true) :
    (check_once env file store).2.1 =
      some { timestamp := env.now,
             metrics := { get_current_metrics env store with
               last_deadline_refresh :=
                 (get_current_metrics env store).current_deadline } } := by
  have hcm : ∃ f cg cd, get_current_metrics env store =
      { finished_gameweeks := some f, current_gameweek := some cg,
        current_deadline := some cd, last_deadline_refresh := none } := by
    unfold get_current_metrics
    rw [hup]
    cases (store.gameweeks.filter EventRec.is_current).head? with
    | none => exact ⟨_, _, _, rfl⟩
    | some gw => exact ⟨_, _, _, rfl⟩
  obtain ⟨f, cg, cd, hcme⟩ := hcm
  unfold check_once
  rw [hcme] at hdet ⊢
  simp only [Metrics.isEmpty, Option.isNone_some, Bool.false_and,
    Bool.false_eq_true, if_false, hdet, if_true, href,
    save_current_state]
  simp

/-- Witness for the amended C3 at the concrete finished-count scenario. -/
theorem snapshot_marks_deadline_on_any_refresh_witness :
    (check_once c3Env c3File c3Store).2.1 =
      some { timestamp := c3Env.now,
             metrics := { get_current_metrics c3Env c3Store with
               last_deadline_refresh :=
                 (get_current_metrics c3Env c3Store).current_deadline } } :=
  snapshot_marks_deadline_on_any_refresh c3Env c3File c3Store rfl
    (by decide) (by decide)

/-! ### Empty bootstrap entity lists (C9) -/

/-- C9: a batch upsert of an empty record list returns failure (it needs at
least one successful record); hence a refresh whose bootstrap document has an
empty teams, players, or periods list returns failure, and the triggered check
cycle does not persist a new snapshot. -/
theorem empty_core_batch_fails_refresh (env : Env) (store : Store)
    (b : BootstrapDoc) (file : Option SavedState)
    (hb : env.bootstrap = some b)
    (hempty : b.teams = [] ∨ b.elements = [] ∨ b.events = [])
    (hne : (get_current_metrics env store).isEmpty = false)
    (hdet : detect_changes env.time (get_current_metrics env store)
        (load_previous_metrics file) = true) :
    (upsert_data TeamRec.id env.rejTeamsPatch env.rejTeamsPost store.teams
        ([] : List TeamRec)).1 = false ∧
      (perform_refresh env store).1 = false ∧
      (check_once env file store).2.1 = file := by
  have hpr : (perform_refresh env store).1 = false := by
    unfold perform_refresh
    cases htc : test_connections env with
    | false => simp [htc]
    | true =>
      rcases hempty with he | he | he
      · simp [htc, hb, he, sync_teams, upsert_data]
      · simp [htc, hb, he, sync_players, upsert_data]
      · simp [htc, hb, he, sync_gameweeks, upsert_data]
  refine ⟨rfl, hpr, ?_⟩
  unfold check_once
  simp [hne, hdet, hpr]

/-- A current gameweek for the C9 witness scenario. -/
def c9Gw : EventRec :=
  { id := 1, deadline_time := some "2024-08-16T17:30:00Z", is_current := true }

/-- A bootstrap document whose teams list is empty. -/
def c9Boot : BootstrapDoc :=
  { teams := [], elements := [{ id := 1 }], events := [c9Gw] }

/-- A store in which the deadline trigger fires against an empty previous
snapshot. -/
def c9Store : Store := { gameweeks := [c9Gw] }

/-- An otherwise healthy environment whose bootstrap carries no teams. -/
def c9Env : Env :=
  { bootstrap := some c9Boot, fixturesDoc := some [{ id := 1 }],
    deadlineElapsed := fun _ => some true }

/-- Witness for C9: with an empty teams list the empty batch fails, the
refresh fails, and the state file is left untouched (`none`). -/
theorem empty_core_batch_fails_refresh_witness :
    (upsert_data TeamRec.id c9Env.rejTeamsPatch c9Env.rejTeamsPost
        c9Store.teams ([] : List TeamRec)).1 = false ∧
      (perform_refresh c9Env c9Store).1 = false ∧
      (check_once c9Env none c9Store).2.1 = none :=
  empty_core_batch_fails_refresh c9Env c9Store c9Boot none rfl (Or.inl rfl)
    (by decide) (by decide)

end FPLService
